import Mathlib

/-!
Verification of the gsm package (a zero-dependency Go client for Google
Cloud Secret Manager) against its natural-language specification.

The embedding models `secret.go` faithfully:
* each retry loop (`getProjectID`, `getAccessToken`, the secret-access loop
  of `FetchFromProject`, the create and add-version loops of
  `StoreInProject`) is translated as a structurally recursive function over
  the remaining attempts, taking the environment (the outcome of each HTTP
  attempt, and whether the context is done during each inter-attempt wait)
  as explicit parameters;
* errors are modelled by `GError`: the context's own error value
  (`ctx.Err()`) is a distinguished constructor, every other error carries
  its Go message, built with the exact format strings of the source;
* Go byte strings (secret values) are modelled as `List Nat` of bytes;
  `base64.StdEncoding` is implemented concretely;
* JSON library behaviour on *response* bodies is part of the environment
  (each attempt outcome carries the decode result for that call's expected
  shape), while the *request* bodies marshalled by the source are rendered
  concretely.
-/

namespace GSM

/-- `maxRetries` from secret.go: the shared attempt cap. -/
def maxRetries : Nat := 3

/-- `apiURL` from secret.go. -/
def apiURL : String := "https://secretmanager.googleapis.com/v1"

/-- `metadataURL` from secret.go. -/
def metadataURL : String := "http://metadata.google.internal/computeMetadata/v1"

/-- A Go error value as observed by callers: either the context's own error
(`ctx.Err()`, i.e. `context.Canceled` / `context.DeadlineExceeded`), or an
ordinary error identified by its message. -/
inductive GError where
  | ctx : GError
  | mk (msg : String) : GError
deriving DecidableEq, Repr

/-- `Error()` on the modelled Go error. -/
def GError.message : GError → String
  | .ctx => "context canceled"
  | .mk s => s

/-- Message produced by `fmt.Errorf("...: %w", lastErr)` for the remembered
error (which is never nil on these paths, but we keep Go's `%w`-of-nil text
for totality). -/
def lastErrMessage : Option GError → String
  | none => "%!w(<nil>)"
  | some e => e.message

/- Validation: the two regular expressions of secret.go,
`projectIDRegex = ^[a-z][a-z0-9-]{4,28}[a-z0-9]$` and
`secretNameRegex = ^[a-zA-Z0-9_-]{1,255}$`, embedded as decidable
character-level predicates. -/

def isLowerAZ (c : Char) : Bool := 'a' ≤ c && c ≤ 'z'

def isUpperAZ (c : Char) : Bool := 'A' ≤ c && c ≤ 'Z'

def isDigit09 (c : Char) : Bool := '0' ≤ c && c ≤ '9'

/-- Character class `[a-z0-9-]` (the middle part of the project-ID regex). -/
def pidMidChar (c : Char) : Bool := isLowerAZ c || isDigit09 c || c == '-'

/-- Character class `[a-z0-9]` (the final character of the project-ID regex). -/
def pidLastChar (c : Char) : Bool := isLowerAZ c || isDigit09 c

/-- Character class `[a-zA-Z0-9_-]` of the secret-name regex. -/
def nameChar (c : Char) : Bool :=
  isLowerAZ c || isUpperAZ c || isDigit09 c || c == '_' || c == '-'

/-- `projectIDRegex.MatchString`: `^[a-z][a-z0-9-]{4,28}[a-z0-9]$`. -/
def projectIDMatch (s : String) : Bool :=
  match s.data with
  | [] => false
  | c :: rest =>
    match rest.getLast? with
    | none => false
    | some d =>
      isLowerAZ c && pidLastChar d && rest.dropLast.all pidMidChar &&
        4 ≤ rest.dropLast.length && rest.dropLast.length ≤ 28

/-- `secretNameRegex.MatchString`: `^[a-zA-Z0-9_-]{1,255}$`. -/
def secretNameMatch (s : String) : Bool :=
  1 ≤ s.data.length && s.data.length ≤ 255 && s.data.all nameChar

/-- `strings.Contains(s, substr)`: substring containment. -/
def goContains (s substr : String) : Bool := decide (substr.data <:+: s.data)

/- base64: a concrete implementation of Go's `base64.StdEncoding`
(`EncodeToString` / `DecodeString`).  The decoder follows Go's default
(non-strict) decoder on newline-free input: it requires canonical `=`
padding and rejects characters outside the alphabet, but does not insist
that unused trailing bits are zero. -/

/-- The standard base64 alphabet. -/
def b64Alphabet : List Char :=
  "ABCDEFGHIJKLMNOPQRSTUVWXYZabcdefghijklmnopqrstuvwxyz0123456789+/".data

/-- The alphabet character for a 6-bit value. -/
def encChar (n : Nat) : Char := b64Alphabet.getD n 'A'

/-- The 6-bit value of an alphabet character, if any. -/
def decChar (c : Char) : Option Nat := b64Alphabet.findIdx? (fun d => d == c)

/-- `base64.StdEncoding.EncodeToString` on a byte list, producing the
character list of the encoded text. -/
def b64EncodeL : List Nat → List Char
  | [] => []
  | [a] => [encChar (a / 4), encChar (a % 4 * 16), '=', '=']
  | [a, b] => [encChar (a / 4), encChar (a % 4 * 16 + b / 16), encChar (b % 16 * 4), '=']
  | a :: b :: c :: rest =>
    encChar (a / 4) :: encChar (a % 4 * 16 + b / 16) ::
      encChar (b % 16 * 4 + c / 64) :: encChar (c % 64) :: b64EncodeL rest

/-- `base64.StdEncoding.DecodeString` on the character list of the input. -/
def b64DecodeL : List Char → Option (List Nat)
  | [] => some []
  | c0 :: c1 :: c2 :: c3 :: rest =>
    match decChar c0, decChar c1 with
    | some w0, some w1 =>
      if c2 = '=' then
        if c3 = '=' ∧ rest = [] then some [w0 * 4 + w1 / 16] else none
      else
        match decChar c2 with
        | some w2 =>
          if c3 = '=' then
            if rest = [] then some [w0 * 4 + w1 / 16, w1 % 16 * 16 + w2 / 4] else none
          else
            match decChar c3 with
            | some w3 =>
              (b64DecodeL rest).map
                (fun tail =>
                  (w0 * 4 + w1 / 16) :: (w1 % 16 * 16 + w2 / 4) :: (w2 % 4 * 64 + w3) :: tail)
            | none => none
        | none => none
    | _, _ => none
  | _ => none

/-- `base64.StdEncoding.EncodeToString` (String-valued). -/
def goB64Encode (v : List Nat) : String := ⟨b64EncodeL v⟩

/-- `base64.StdEncoding.DecodeString`, `none` on a decode error. -/
def goB64Decode (s : String) : Option (List Nat) := b64DecodeL s.data

/-- The `data` field StoreInProject puts into the add-version payload:
`encoded := base64.StdEncoding.EncodeToString([]byte(value))`. -/
def storedData (value : List Nat) : String := goB64Encode value

/- The retrying request pipeline.  Each Go retry loop
(`for attempt := range maxRetries`) becomes a structurally recursive
function over the remaining attempts.  The environment of a loop is a pair
of functions indexed by the 0-based attempt number:
* `ctx attempt` — whether `ctx.Done()` fires during the fixed-delay wait
  that precedes that attempt (the wait, and hence this check, only happens
  when `attempt > 0`);
* `env attempt` — the outcome of the HTTP request issued by that attempt.
Each function also returns the number of HTTP requests issued. -/

/-- Outcome of one attempt of `getProjectID`: a transport error from
`httpClient.Do`, or a response with its status and the result of
`io.ReadAll` on the (10 MiB-capped) body. -/
inductive PidAttempt where
  | netErr (msg : String) : PidAttempt
  | resp (status : Nat) (read : Except String String) : PidAttempt
deriving Repr

/-- Outcome of one attempt of `getAccessToken`: a transport error, or a
response with its status and the result of `json.Decode` on the body
(`.ok t` gives the `access_token` field, possibly empty; `.error m` is a
decode error). -/
inductive TokAttempt where
  | netErr (msg : String) : TokAttempt
  | resp (status : Nat) (decode : Except String String) : TokAttempt
deriving Repr

/-- Outcome of one attempt of the secret-access loop of `FetchFromProject`:
a transport error, or a response with its status, the result of
`io.ReadAll`, and — nested — the result of `json.Unmarshal` giving the
`payload.data` field. -/
inductive AccAttempt where
  | netErr (msg : String) : AccAttempt
  | resp (status : Nat) (read : Except String (Except String String)) : AccAttempt
deriving Repr

/-- Outcome of one attempt of the create / add-version loops of
`StoreInProject`: a transport error, or a response with its status and the
raw body text (read best-effort for inclusion in error messages). -/
inductive StoreAttempt where
  | netErr (msg : String) : StoreAttempt
  | resp (status : Nat) (body : String) : StoreAttempt
deriving DecidableEq, Repr

/-- The retry loop of `getProjectID` (secret.go lines 68-111), plus the
post-loop wrap-up (lines 113-117).  Arguments after the environment:
current attempt number, remaining attempts, the remembered `lastErr`, and
the number of requests issued so far. -/
def pidLoop (ctx : Nat → Bool) (env : Nat → PidAttempt) :
    Nat → Nat → Option GError → Nat → Except GError String × Nat
  | _, 0, lastErr, n =>
    (.error (.mk ("failed to get project ID: " ++ lastErrMessage lastErr)), n)
  | attempt, rem + 1, _lastErr, n =>
    if attempt ≠ 0 ∧ ctx attempt then
      (.error .ctx, n)
    else
      match env attempt with
      | .netErr m => pidLoop ctx env (attempt + 1) rem (some (.mk m)) (n + 1)
      | .resp status read =>
        if status ≠ 200 then
          pidLoop ctx env (attempt + 1) rem
            (some (.mk ("metadata server status " ++ toString status))) (n + 1)
        else
          match read with
          | .error m => pidLoop ctx env (attempt + 1) rem (some (.mk m)) (n + 1)
          | .ok body =>
            if body.trim ≠ "" then (.ok body.trim, n + 1)
            else pidLoop ctx env (attempt + 1) rem (some (.mk "empty project ID")) (n + 1)

/-- `getProjectID` (secret.go lines 64-118). -/
def getProjectIDGo (ctx : Nat → Bool) (env : Nat → PidAttempt) :
    Except GError String × Nat :=
  pidLoop ctx env 0 maxRetries none 0

/-- The retry loop of `getAccessToken` (secret.go lines 125-170), plus the
post-loop wrap-up (lines 172-176). -/
def tokLoop (ctx : Nat → Bool) (env : Nat → TokAttempt) :
    Nat → Nat → Option GError → Nat → Except GError String × Nat
  | _, 0, lastErr, n =>
    (.error (.mk ("failed to get access token: " ++ lastErrMessage lastErr)), n)
  | attempt, rem + 1, _lastErr, n =>
    if attempt ≠ 0 ∧ ctx attempt then
      (.error .ctx, n)
    else
      match env attempt with
      | .netErr m => tokLoop ctx env (attempt + 1) rem (some (.mk m)) (n + 1)
      | .resp status decodeRes =>
        if status ≠ 200 then
          tokLoop ctx env (attempt + 1) rem
            (some (.mk ("metadata server status " ++ toString status))) (n + 1)
        else
          match decodeRes with
          | .error m => tokLoop ctx env (attempt + 1) rem (some (.mk m)) (n + 1)
          | .ok t =>
            if t ≠ "" then (.ok t, n + 1)
            else tokLoop ctx env (attempt + 1) rem (some (.mk "empty access token")) (n + 1)

/-- `getAccessToken` (secret.go lines 121-177). -/
def getAccessTokenGo (ctx : Nat → Bool) (env : Nat → TokAttempt) :
    Except GError String × Nat :=
  tokLoop ctx env 0 maxRetries none 0

/-- Error message of Go's `base64.CorruptInputError`, kept abstract (its
exact text plays no role in the specification). -/
def b64ErrMsg (_ : String) : String := "illegal base64 data"

/-- The retry loop of `FetchFromProject` (secret.go lines 196-258), plus
the post-loop wrap-up (line 260).  On success it returns the decoded
secret bytes (`string(decoded)` in Go). -/
def accLoop (ctx : Nat → Bool) (env : Nat → AccAttempt) :
    Nat → Nat → Option GError → Nat → Except GError (List Nat) × Nat
  | _, 0, lastErr, n =>
    (.error (.mk ("failed to access secret: " ++ lastErrMessage lastErr)), n)
  | attempt, rem + 1, _lastErr, n =>
    if attempt ≠ 0 ∧ ctx attempt then
      (.error .ctx, n)
    else
      match env attempt with
      | .netErr m => accLoop ctx env (attempt + 1) rem (some (.mk m)) (n + 1)
      | .resp status read =>
        if 400 ≤ status ∧ status < 500 then
          (.error (.mk ("failed to access secret: status " ++ toString status)), n + 1)
        else if status ≠ 200 then
          accLoop ctx env (attempt + 1) rem
            (some (.mk ("status " ++ toString status))) (n + 1)
        else
          match read with
          | .error m => accLoop ctx env (attempt + 1) rem (some (.mk m)) (n + 1)
          | .ok parse =>
            match parse with
            | .error m => accLoop ctx env (attempt + 1) rem (some (.mk m)) (n + 1)
            | .ok data =>
              match goB64Decode data with
              | none =>
                accLoop ctx env (attempt + 1) rem
                  (some (.mk ("failed to decode secret data: " ++ b64ErrMsg data))) (n + 1)
              | some bytes => (.ok bytes, n + 1)

/-- `FetchFromProject` (secret.go lines 180-261): validation, token
resolution, then the secret-access loop.  The second component is the
total number of HTTP requests issued (token requests plus access
requests). -/
def FetchFromProjectGo (ctxT : Nat → Bool) (envT : Nat → TokAttempt)
    (ctxA : Nat → Bool) (envA : Nat → AccAttempt) (pid name : String) :
    Except GError (List Nat) × Nat :=
  if ¬ projectIDMatch pid then
    (.error (.mk ("invalid project ID format: \"" ++ pid ++ "\"")), 0)
  else if ¬ secretNameMatch name then
    (.error (.mk "invalid secret name format"), 0)
  else
    match getAccessTokenGo ctxT envT with
    | (.error e, n) => (.error e, n)
    | (.ok _, n) =>
      let r := accLoop ctxA envA 0 maxRetries none 0
      (r.1, n + r.2)

/-- `Fetch` (secret.go lines 50-61): name validation, project-ID
resolution, then delegation to `FetchFromProject`. -/
def FetchGo (ctxP : Nat → Bool) (envP : Nat → PidAttempt)
    (ctxT : Nat → Bool) (envT : Nat → TokAttempt)
    (ctxA : Nat → Bool) (envA : Nat → AccAttempt) (name : String) :
    Except GError (List Nat) × Nat :=
  if ¬ secretNameMatch name then
    (.error (.mk "invalid secret name format"), 0)
  else
    match getProjectIDGo ctxP envP with
    | (.error e, n) => (.error e, n)
    | (.ok pid, n) =>
      let r := FetchFromProjectGo ctxT envT ctxA envA pid name
      (r.1, n + r.2)

/-- How the create-phase loop of `StoreInProject` exits: an immediate
return from inside the loop (context cancellation or a terminal 4xx), or
loop exit (break / exhaustion) with the final value of `createErr`. -/
inductive CreatePhase where
  | abort (e : GError) : CreatePhase
  | done (createErr : Option GError) : CreatePhase
deriving DecidableEq, Repr

/-- The create-phase loop of `StoreInProject` (secret.go lines 307-354).
Note that the `break` on a 200/201 response does **not** clear
`createErr`: a success after an earlier transient failure exits the loop
with the stale remembered error, exactly as in the source. -/
def createLoop (ctx : Nat → Bool) (env : Nat → StoreAttempt) :
    Nat → Nat → Option GError → Nat → CreatePhase × Nat
  | _, 0, createErr, n => (.done createErr, n)
  | attempt, rem + 1, createErr, n =>
    if attempt ≠ 0 ∧ ctx attempt then
      (.abort .ctx, n)
    else
      match env attempt with
      | .netErr m => createLoop ctx env (attempt + 1) rem (some (.mk m)) (n + 1)
      | .resp status body =>
        if status = 200 ∨ status = 201 then
          (.done createErr, n + 1)
        else if status = 409 then
          (.done (some (.mk ("secret already exists: status " ++ toString status))), n + 1)
        else if 400 ≤ status ∧ status < 500 then
          (.abort (.mk ("failed to create secret: status " ++ toString status ++ ": " ++ body)),
            n + 1)
        else
          createLoop ctx env (attempt + 1) rem
            (some (.mk ("status " ++ toString status ++ ": " ++ body))) (n + 1)

/-- The post-create check of `StoreInProject` (secret.go line 357):
`createErr != nil && !strings.Contains(createErr.Error(), "secret already exists")`. -/
def createErrBlocks (createErr : Option GError) : Bool :=
  match createErr with
  | none => false
  | some e => ! goContains e.message "secret already exists"

/-- The add-version loop of `StoreInProject` (secret.go lines 375-416),
plus the post-loop wrap-up (line 418). -/
def addvLoop (ctx : Nat → Bool) (env : Nat → StoreAttempt) :
    Nat → Nat → Option GError → Nat → Except GError Unit × Nat
  | _, 0, lastErr, n =>
    (.error (.mk ("failed to add secret version: " ++ lastErrMessage lastErr)), n)
  | attempt, rem + 1, _lastErr, n =>
    if attempt ≠ 0 ∧ ctx attempt then
      (.error .ctx, n)
    else
      match env attempt with
      | .netErr m => addvLoop ctx env (attempt + 1) rem (some (.mk m)) (n + 1)
      | .resp status body =>
        if status = 200 then
          (.ok (), n + 1)
        else if 400 ≤ status ∧ status < 500 then
          (.error
            (.mk ("failed to add secret version: status " ++ toString status ++ ": " ++ body)),
            n + 1)
        else
          addvLoop ctx env (attempt + 1) rem
            (some (.mk ("status " ++ toString status ++ ": " ++ body))) (n + 1)

/-- Request counts of one `StoreInProject` call, by call site. -/
structure StoreCounts where
  tok : Nat
  create : Nat
  addv : Nat
deriving DecidableEq, Repr

/-- Total number of HTTP requests issued. -/
def StoreCounts.total (c : StoreCounts) : Nat := c.tok + c.create + c.addv

/-- `StoreInProject` (secret.go lines 281-419): validation, token
resolution, the create phase, the `createErr` text check, then the
add-version phase.  The stored `value` (Go string, modelled as bytes) is
base64-encoded into the add-version request body (see `storedData`); the
responses to that request are part of the environment. -/
def StoreInProjectGo (ctxT : Nat → Bool) (envT : Nat → TokAttempt)
    (ctxC : Nat → Bool) (envC : Nat → StoreAttempt)
    (ctxV : Nat → Bool) (envV : Nat → StoreAttempt)
    (pid name : String) (_value : List Nat) :
    Except GError Unit × StoreCounts :=
  if ¬ projectIDMatch pid then
    (.error (.mk ("invalid project ID format: \"" ++ pid ++ "\"")), ⟨0, 0, 0⟩)
  else if ¬ secretNameMatch name then
    (.error (.mk "invalid secret name format"), ⟨0, 0, 0⟩)
  else
    match getAccessTokenGo ctxT envT with
    | (.error e, nT) => (.error e, ⟨nT, 0, 0⟩)
    | (.ok _, nT) =>
      match createLoop ctxC envC 0 maxRetries none 0 with
      | (.abort e, nC) => (.error e, ⟨nT, nC, 0⟩)
      | (.done createErr, nC) =>
        if createErrBlocks createErr then
          (.error (.mk ("failed to create secret: " ++ lastErrMessage createErr)),
            ⟨nT, nC, 0⟩)
        else
          let r := addvLoop ctxV envV 0 maxRetries none 0
          (r.1, ⟨nT, nC, r.2⟩)

/-- `Store` (secret.go lines 266-277): name validation, project-ID
resolution, then delegation to `StoreInProject`.  The second component is
the total number of HTTP requests issued. -/
def StoreGo (ctxP : Nat → Bool) (envP : Nat → PidAttempt)
    (ctxT : Nat → Bool) (envT : Nat → TokAttempt)
    (ctxC : Nat → Bool) (envC : Nat → StoreAttempt)
    (ctxV : Nat → Bool) (envV : Nat → StoreAttempt)
    (name : String) (value : List Nat) :
    Except GError Unit × Nat :=
  if ¬ secretNameMatch name then
    (.error (.mk "invalid secret name format"), 0)
  else
    match getProjectIDGo ctxP envP with
    | (.error e, n) => (.error e, n)
    | (.ok pid, n) =>
      let r := StoreInProjectGo ctxT envT ctxC envC ctxV envV pid name value
      (r.1, n + r.2.total)

/- Wire-level request shapes (for the create request of `StoreInProject`):
the URL, headers, and the `json.Marshal` output of the request body.  The
repository contains two copies of `StoreInProject`; they differ only in
the create request body: the primary copy (secret.go lines 296-300)
marshals `map[string]any\x7b"replication": map[string]any\x7b"automatic":
map[string]any\x7b\x7d\x7d\x7d`, while the duplicated copy (lines 714-718)
marshals `map[string]string\x7b"automatic": "\x7b\x7d"\x7d`, i.e. the
two-character *string* "\x7b\x7d" instead of an empty JSON object. -/

/-- A JSON value as marshalled by `json.Marshal` for the request bodies of
this package (single-key objects, empty objects and strings suffice). -/
inductive JVal where
  | str (s : String) : JVal
  | emptyObj : JVal
  | obj1 (key : String) (v : JVal) : JVal
deriving DecidableEq, Repr

/-- JSON string quoting (no characters needing escapes occur in these
bodies). -/
def jsonQuote (s : String) : String := "\"" ++ s ++ "\""

/-- The `json.Marshal` output text. -/
def JVal.render : JVal → String
  | .str s => jsonQuote s
  | .emptyObj => "\x7b\x7d"
  | .obj1 k v => "\x7b" ++ jsonQuote k ++ ":" ++ v.render ++ "\x7d"

/-- An outbound HTTP request as built by the source. -/
structure HttpRequest where
  method : String
  url : String
  headers : List (String × String)
  body : String
deriving DecidableEq, Repr

/-- `createURL` (secret.go line 295):
`fmt.Sprintf("%s/projects/%s/secrets?secretId=%s", apiURL, pid, name)`. -/
def createURL (pid name : String) : String :=
  apiURL ++ "/projects/" ++ pid ++ "/secrets?secretId=" ++ name

/-- The create request body of the primary `StoreInProject` copy
(secret.go lines 296-301). -/
def createData : String :=
  (JVal.obj1 "replication" (JVal.obj1 "automatic" JVal.emptyObj)).render

/-- The create request body of the duplicated `StoreInProject` copy
(secret.go lines 714-719), whose `automatic` field is the string
"\x7b\x7d". -/
def createDataAlt : String :=
  (JVal.obj1 "replication" (JVal.obj1 "automatic" (JVal.str "\x7b\x7d"))).render

/-- The create-secret request built by the primary `StoreInProject` copy
(secret.go lines 317-322). -/
def createRequest (pid name tok : String) : HttpRequest :=
  { method := "POST"
    url := createURL pid name
    headers := [("Authorization", "Bearer " ++ tok), ("Content-Type", "application/json")]
    body := createData }

/- Helper lemmas shared by the claim theorems. -/

/-- Decoding inverts encoding on each 6-bit value. -/
theorem decChar_encChar : ∀ n, n < 64 → decChar (encChar n) = some n := by decide

/-- No alphabet character is the padding character. -/
theorem encChar_ne_pad : ∀ n, n < 64 → ¬(encChar n = '=') := by decide

/-- `DecodeString` inverts `EncodeToString` on byte lists. -/
theorem b64_roundtrip_list : ∀ (v : List Nat), (∀ x ∈ v, x < 256) →
    b64DecodeL (b64EncodeL v) = some v
  | [], _ => rfl
  | [a], h => by
    have ha : a < 256 := h a (by simp)
    have h0 : a / 4 < 64 := by omega
    have h1 : a % 4 * 16 < 64 := by omega
    simp [b64EncodeL, b64DecodeL, decChar_encChar _ h0, decChar_encChar _ h1]
    omega
  | [a, b], h => by
    have ha : a < 256 := h a (by simp)
    have hb : b < 256 := h b (by simp)
    have h0 : a / 4 < 64 := by omega
    have h1 : a % 4 * 16 + b / 16 < 64 := by omega
    have h2 : b % 16 * 4 < 64 := by omega
    simp [b64EncodeL, b64DecodeL, decChar_encChar _ h0, decChar_encChar _ h1,
      decChar_encChar _ h2, encChar_ne_pad _ h2]
    omega
  | a :: b :: c :: rest, h => by
    have ha : a < 256 := h a (by simp)
    have hb : b < 256 := h b (by simp)
    have hc : c < 256 := h c (by simp)
    have ih := b64_roundtrip_list rest (fun x hx => h x (by simp [hx]))
    have h0 : a / 4 < 64 := by omega
    have h1 : a % 4 * 16 + b / 16 < 64 := by omega
    have h2 : b % 16 * 4 + c / 64 < 64 := by omega
    have h3 : c % 64 < 64 := by omega
    simp [b64EncodeL, b64DecodeL, decChar_encChar _ h0, decChar_encChar _ h1,
      decChar_encChar _ h2, decChar_encChar _ h3, encChar_ne_pad _ h2,
      encChar_ne_pad _ h3, ih]
    refine ⟨by omega, by omega, by omega⟩

/-- String-level round trip. -/
theorem goB64_roundtrip (v : List Nat) (h : ∀ x ∈ v, x < 256) :
    goB64Decode (goB64Encode v) = some v :=
  b64_roundtrip_list v h

/-- `strings.Contains` is preserved by prepending text. -/
theorem goContains_append (a b sub : String) (h : goContains b sub = true) :
    goContains (a ++ b) sub = true := by
  unfold goContains at h ⊢
  rw [decide_eq_true_iff] at h ⊢
  obtain ⟨s, t, hst⟩ := h
  refine ⟨a.data ++ s, t, ?_⟩
  have hd : (a ++ b).data = a.data ++ b.data := rfl
  rw [hd, ← hst]
  simp

/-- A token fetch whose first response is 200 with a non-empty token
succeeds with a single request. -/
theorem tok_first_success (ctxT : Nat → Bool) (envT : Nat → TokAttempt) (tok : String)
    (h0 : envT 0 = .resp 200 (.ok tok)) (hne : tok ≠ "") :
    getAccessTokenGo ctxT envT = (.ok tok, 1) := by
  simp [getAccessTokenGo, maxRetries, tokLoop, h0, hne]

/-- The add-version loop always issues at least one request. -/
theorem addvLoop_issues (ctx : Nat → Bool) (env : Nat → StoreAttempt)
    (rem : Nat) (lastErr : Option GError) (n : Nat) :
    n + 1 ≤ (addvLoop ctx env 0 (rem + 1) lastErr n).2 := by
  have aux : ∀ fuel attempt le k, k ≤ (addvLoop ctx env attempt fuel le k).2 := by
    intro fuel
    induction fuel with
    | zero => intro attempt le k; simp [addvLoop]
    | succ f ih =>
      intro attempt le k
      rw [addvLoop]
      split
      · simp
      · split
        · exact le_trans (Nat.le_succ k) (ih _ _ _)
        · split
          · simp
          · split
            · simp
            · exact le_trans (Nat.le_succ k) (ih _ _ _)
  rw [addvLoop]
  have hg : ¬((0 : Nat) ≠ 0 ∧ ctx 0) := by simp
  rw [if_neg hg]
  cases henv : env 0 with
  | netErr m =>
    simp only []
    exact aux _ _ _ _
  | resp status body =>
    by_cases h200 : status = 200
    · simp [h200]
    · by_cases h4 : 400 ≤ status ∧ status < 500
      · simp [h200, h4]
      · simp only [h200, h4]
        simp only [if_false]
        exact aux _ _ _ _

/-- A create loop hitting 409 after `k` transient 500s exits the loop via
the already-exists break, having issued `k + 1` requests. -/
theorem create_409_at (env : Nat → StoreAttempt) (k : Nat) (b : Nat → String) (body : String)
    (hk : k < maxRetries)
    (hpre : ∀ j, j < k → env j = .resp 500 (b j))
    (h409 : env k = .resp 409 body) :
    createLoop (fun _ => false) env 0 maxRetries none 0 =
      (.done (some (.mk "secret already exists: status 409")), k + 1) := by
  rw [maxRetries] at hk ⊢
  interval_cases k
  · simp [createLoop, h409]
    rfl
  · have h0 := hpre 0 (by omega)
    simp [createLoop, h0, h409]
    rfl
  · have h0 := hpre 0 (by omega)
    have h1 := hpre 1 (by omega)
    simp [createLoop, h0, h1, h409]
    rfl

/-- A create loop hitting a non-409 4xx after `k` transient 500s returns
terminally from inside the loop, having issued `k + 1` requests. -/
theorem create_4xx_abort_at (env : Nat → StoreAttempt) (k : Nat) (b : Nat → String)
    (status : Nat) (body : String)
    (hk : k < maxRetries)
    (h4 : 400 ≤ status) (h5 : status < 500) (hne : status ≠ 409)
    (hpre : ∀ j, j < k → env j = .resp 500 (b j))
    (hkx : env k = .resp status body) :
    createLoop (fun _ => false) env 0 maxRetries none 0 =
      (.abort (.mk ("failed to create secret: status " ++ toString status ++ ": " ++ body)),
        k + 1) := by
  have h200 : ¬(status = 200 ∨ status = 201) := by omega
  rw [maxRetries] at hk ⊢
  interval_cases k
  · simp [createLoop, hkx, h200, hne, h4, h5]
  · have h0 := hpre 0 (by omega)
    simp [createLoop, h0, hkx, h200, hne, h4, h5]
  · have h0 := hpre 0 (by omega)
    have h1 := hpre 1 (by omega)
    simp [createLoop, h0, h1, hkx, h200, hne, h4, h5]

/-- A create loop whose three attempts all answer 500 with body `b` exits
by exhaustion, remembering `status 500: b`. -/
theorem create_500_exhaust (ctx : Nat → Bool) (env : Nat → StoreAttempt) (b : String)
    (hc : ∀ j, 0 < j → ctx j = false)
    (h : ∀ j, j < maxRetries → env j = .resp 500 b) :
    createLoop ctx env 0 maxRetries none 0 =
      (.done (some (.mk ("status 500: " ++ b))), 3) := by
  have h0 := h 0 (by rw [maxRetries]; omega)
  have h1 := h 1 (by rw [maxRetries]; omega)
  have h2 := h 2 (by rw [maxRetries]; omega)
  simp [maxRetries, createLoop, h0, h1, h2, hc 1 (by omega), hc 2 (by omega)]
  rfl

/- Claim theorems. -/

/-- C1, counterexample: the claim extends 4xx-is-terminal to the metadata
resolver, but `getProjectID` and `getAccessToken` treat a 404 like any
other non-200 status: they retry it, issuing all 3 requests (not exactly
one) and incurring retry waits, before failing with the wrapped last
cause. -/
theorem c1_metadata_4xx_retried_counterexample :
    getProjectIDGo (fun _ => false) (fun _ => .resp 404 (.ok "")) =
      (.error (.mk "failed to get project ID: metadata server status 404"), 3) ∧
    getAccessTokenGo (fun _ => false) (fun _ => .resp 404 (.error "no body")) =
      (.error (.mk "failed to get access token: metadata server status 404"), 3) ∧
    (3 : Nat) ≠ 1 :=
  ⟨rfl, rfl, by omega⟩

/-- C1, amended: a 4xx response (other than 409 during creation) received
at the secret-access, secret-create, or add-version call sites makes that
loop stop immediately with a terminal error after that single request — no
further attempt, no retry wait — and at the operation level
`FetchFromProject` then fails having issued exactly one access request;
the metadata resolver's project-ID and access-token fetches instead treat
every non-200 status, 4xx included, as retryable. -/
theorem c1_amended_4xx_terminal_at_api_sites :
    (∀ (ctx : Nat → Bool) (env : Nat → AccAttempt) (attempt rem : Nat)
        (lastErr : Option GError) (n status : Nat) (read : Except String (Except String String)),
        ¬(attempt ≠ 0 ∧ ctx attempt) → env attempt = .resp status read →
        400 ≤ status → status < 500 →
        accLoop ctx env attempt (rem + 1) lastErr n =
          (.error (.mk ("failed to access secret: status " ++ toString status)), n + 1)) ∧
    (∀ (ctx : Nat → Bool) (env : Nat → StoreAttempt) (attempt rem : Nat)
        (createErr : Option GError) (n status : Nat) (body : String),
        ¬(attempt ≠ 0 ∧ ctx attempt) → env attempt = .resp status body →
        400 ≤ status → status < 500 → status ≠ 409 →
        createLoop ctx env attempt (rem + 1) createErr n =
          (.abort (.mk ("failed to create secret: status " ++ toString status ++ ": " ++ body)),
            n + 1)) ∧
    (∀ (ctx : Nat → Bool) (env : Nat → StoreAttempt) (attempt rem : Nat)
        (lastErr : Option GError) (n status : Nat) (body : String),
        ¬(attempt ≠ 0 ∧ ctx attempt) → env attempt = .resp status body →
        400 ≤ status → status < 500 →
        addvLoop ctx env attempt (rem + 1) lastErr n =
          (.error
            (.mk ("failed to add secret version: status " ++ toString status ++ ": " ++ body)),
            n + 1)) ∧
    (∀ (envT : Nat → TokAttempt) (ctxA : Nat → Bool) (envA : Nat → AccAttempt)
        (pid name tok : String) (status : Nat) (read : Except String (Except String String)),
        projectIDMatch pid = true → secretNameMatch name = true →
        envT 0 = .resp 200 (.ok tok) → tok ≠ "" →
        envA 0 = .resp status read → 400 ≤ status → status < 500 →
        FetchFromProjectGo (fun _ => false) envT ctxA envA pid name =
          (.error (.mk ("failed to access secret: status " ++ toString status)), 2)) ∧
    (∀ (ctx : Nat → Bool) (env : Nat → PidAttempt) (attempt rem : Nat)
        (lastErr : Option GError) (n status : Nat) (read : Except String String),
        ¬(attempt ≠ 0 ∧ ctx attempt) → env attempt = .resp status read → status ≠ 200 →
        pidLoop ctx env attempt (rem + 1) lastErr n =
          pidLoop ctx env (attempt + 1) rem
            (some (.mk ("metadata server status " ++ toString status))) (n + 1)) ∧
    (∀ (ctx : Nat → Bool) (env : Nat → TokAttempt) (attempt rem : Nat)
        (lastErr : Option GError) (n status : Nat) (decodeRes : Except String String),
        ¬(attempt ≠ 0 ∧ ctx attempt) → env attempt = .resp status decodeRes → status ≠ 200 →
        tokLoop ctx env attempt (rem + 1) lastErr n =
          tokLoop ctx env (attempt + 1) rem
            (some (.mk ("metadata server status " ++ toString status))) (n + 1)) := by
  refine ⟨?_, ?_, ?_, ?_, ?_, ?_⟩
  · intro ctx env attempt rem lastErr n status read hctx henv h4 h5
    simp [accLoop, hctx, henv, h4, h5]
  · intro ctx env attempt rem createErr n status body hctx henv h4 h5 hne
    have h200 : ¬(status = 200 ∨ status = 201) := by omega
    simp [createLoop, hctx, henv, h200, hne, h4, h5]
  · intro ctx env attempt rem lastErr n status body hctx henv h4 h5
    have h200 : status ≠ 200 := by omega
    simp [addvLoop, hctx, henv, h200, h4, h5]
  · intro envT ctxA envA pid name tok status read hpid hname hT htok hA h4 h5
    have htokr := tok_first_success (fun _ => false) envT tok hT htok
    have hacc : accLoop ctxA envA 0 maxRetries none 0 =
        (.error (.mk ("failed to access secret: status " ++ toString status)), 0 + 1) := by
      rw [maxRetries]
      simp [accLoop, hA, h4, h5]
    simp [FetchFromProjectGo, hpid, hname, htokr, hacc]
  · intro ctx env attempt rem lastErr n status read hctx henv hne
    simp [pidLoop, hctx, henv, hne]
  · intro ctx env attempt rem lastErr n status decodeRes hctx henv hne
    simp [tokLoop, hctx, henv, hne]

/-- C1, witness: the amended theorem applied at a concrete input — a 403
on the first secret-access attempt stops the access loop immediately with
one request issued. -/
theorem c1_amended_4xx_terminal_at_api_sites_witness :
    accLoop (fun _ => false) (fun _ => .resp 403 (.error "x")) 0 (2 + 1) none 0 =
      (.error (.mk ("failed to access secret: status " ++ toString 403)), 0 + 1) :=
  c1_amended_4xx_terminal_at_api_sites.1 (fun _ => false) (fun _ => .resp 403 (.error "x"))
    0 2 none 0 403 (.error "x") (by simp) rfl (by omega) (by omega)

/-- C4: at every call site, if the context is done during the
inter-attempt wait, the loop returns the context's own error value at once
— no further request is issued (the request count is unchanged) and the
remembered error, whatever it is, is not returned; the context error is
distinguishable from every message-carrying error. -/
theorem c4_cancellation_during_wait_returns_ctx_error :
    (∀ (ctx : Nat → Bool) (env : Nat → PidAttempt) (attempt rem : Nat)
        (lastErr : Option GError) (n : Nat), attempt ≠ 0 → ctx attempt = true →
        pidLoop ctx env attempt (rem + 1) lastErr n = (.error .ctx, n)) ∧
    (∀ (ctx : Nat → Bool) (env : Nat → TokAttempt) (attempt rem : Nat)
        (lastErr : Option GError) (n : Nat), attempt ≠ 0 → ctx attempt = true →
        tokLoop ctx env attempt (rem + 1) lastErr n = (.error .ctx, n)) ∧
    (∀ (ctx : Nat → Bool) (env : Nat → AccAttempt) (attempt rem : Nat)
        (lastErr : Option GError) (n : Nat), attempt ≠ 0 → ctx attempt = true →
        accLoop ctx env attempt (rem + 1) lastErr n = (.error .ctx, n)) ∧
    (∀ (ctx : Nat → Bool) (env : Nat → StoreAttempt) (attempt rem : Nat)
        (createErr : Option GError) (n : Nat), attempt ≠ 0 → ctx attempt = true →
        createLoop ctx env attempt (rem + 1) createErr n = (.abort .ctx, n)) ∧
    (∀ (ctx : Nat → Bool) (env : Nat → StoreAttempt) (attempt rem : Nat)
        (lastErr : Option GError) (n : Nat), attempt ≠ 0 → ctx attempt = true →
        addvLoop ctx env attempt (rem + 1) lastErr n = (.error .ctx, n)) ∧
    (∀ msg, GError.ctx ≠ GError.mk msg) := by
  refine ⟨?_, ?_, ?_, ?_, ?_, ?_⟩
  · intro ctx env attempt rem lastErr n h1 h2
    simp [pidLoop, h1, h2]
  · intro ctx env attempt rem lastErr n h1 h2
    simp [tokLoop, h1, h2]
  · intro ctx env attempt rem lastErr n h1 h2
    simp [accLoop, h1, h2]
  · intro ctx env attempt rem createErr n h1 h2
    simp [createLoop, h1, h2]
  · intro ctx env attempt rem lastErr n h1 h2
    simp [addvLoop, h1, h2]
  · intro msg h
    exact GError.noConfusion h

/-- C4, witness: the theorem applied at a concrete input — with a stale
remembered error in hand and the context done during the wait before
attempt 1, the access loop returns the context error, not the stale one,
with no further request. -/
theorem c4_cancellation_during_wait_returns_ctx_error_witness :
    accLoop (fun _ => true) (fun _ => .netErr "boom") 1 (1 + 1) (some (.mk "stale")) 1 =
      (.error .ctx, 1) :=
  c4_cancellation_during_wait_returns_ctx_error.2.2.1 (fun _ => true) (fun _ => .netErr "boom")
    1 1 (some (.mk "stale")) 1 (by omega) rfl

/-- C7: in the secret-access loop, a JSON unmarshal failure or a base64
decode failure after a 200 response is retryable: it becomes the attempt's
remembered error and the loop moves on to the next attempt. -/
theorem c7_decode_failure_after_200_is_retryable :
    (∀ (ctx : Nat → Bool) (env : Nat → AccAttempt) (attempt rem : Nat)
        (lastErr : Option GError) (n : Nat) (m : String),
        ¬(attempt ≠ 0 ∧ ctx attempt) → env attempt = .resp 200 (.ok (.error m)) →
        accLoop ctx env attempt (rem + 1) lastErr n =
          accLoop ctx env (attempt + 1) rem (some (.mk m)) (n + 1)) ∧
    (∀ (ctx : Nat → Bool) (env : Nat → AccAttempt) (attempt rem : Nat)
        (lastErr : Option GError) (n : Nat) (d : String),
        ¬(attempt ≠ 0 ∧ ctx attempt) → env attempt = .resp 200 (.ok (.ok d)) →
        goB64Decode d = none →
        accLoop ctx env attempt (rem + 1) lastErr n =
          accLoop ctx env (attempt + 1) rem
            (some (.mk ("failed to decode secret data: " ++ b64ErrMsg d))) (n + 1)) := by
  constructor
  · intro ctx env attempt rem lastErr n m hctx henv
    simp [accLoop, hctx, henv]
  · intro ctx env attempt rem lastErr n d hctx henv hdec
    simp [accLoop, hctx, henv, hdec]

/-- C7, witness: the theorem applied at a concrete input — a 200 response
whose payload data "!" is not valid base64 sends the loop to the next
attempt with the decode error remembered. -/
theorem c7_decode_failure_after_200_is_retryable_witness :
    accLoop (fun _ => false) (fun _ => .resp 200 (.ok (.ok "!"))) 0 (2 + 1) none 0 =
      accLoop (fun _ => false) (fun _ => .resp 200 (.ok (.ok "!"))) (0 + 1) 2
        (some (.mk ("failed to decode secret data: " ++ b64ErrMsg "!"))) (0 + 1) :=
  c7_decode_failure_after_200_is_retryable.2 (fun _ => false)
    (fun _ => .resp 200 (.ok (.ok "!"))) 0 2 none 0 "!" (by simp) rfl rfl

/-- C9: when the token endpoint always answers 200 with an empty
`access_token`, the resolver never accepts it: all 3 attempts are used and
the call fails with the empty-token cause wrapped under the
"failed to get access token" prefix. -/
theorem c9_empty_access_token_never_valid :
    getAccessTokenGo (fun _ => false) (fun _ => .resp 200 (.ok "")) =
      (.error (.mk "failed to get access token: empty access token"), 3) := rfl

/-- C2: whichever attempt of the create phase answers 409 Conflict (after
any run of transient 500s), `StoreInProject` treats creation as done — no
create error is surfaced — and proceeds to the add-version phase, whose
loop issues at least one request and whose verdict becomes the operation's
result; any other 4xx in the create phase instead aborts the whole
operation with the create error before any add-version request is
issued. -/
theorem c2_create_409_proceeds_other_4xx_aborts :
    (∀ (envT : Nat → TokAttempt) (envC : Nat → StoreAttempt)
        (ctxV : Nat → Bool) (envV : Nat → StoreAttempt)
        (pid name : String) (value : List Nat) (tok : String)
        (k : Nat) (b : Nat → String) (body : String),
        projectIDMatch pid = true → secretNameMatch name = true →
        envT 0 = .resp 200 (.ok tok) → tok ≠ "" →
        k < maxRetries →
        (∀ j, j < k → envC j = .resp 500 (b j)) →
        envC k = .resp 409 body →
        StoreInProjectGo (fun _ => false) envT (fun _ => false) envC ctxV envV
            pid name value =
          ((addvLoop ctxV envV 0 maxRetries none 0).1,
            ⟨1, k + 1, (addvLoop ctxV envV 0 maxRetries none 0).2⟩) ∧
        1 ≤ (StoreInProjectGo (fun _ => false) envT (fun _ => false) envC ctxV envV
            pid name value).2.addv) ∧
    (∀ (envT : Nat → TokAttempt) (envC : Nat → StoreAttempt)
        (ctxV : Nat → Bool) (envV : Nat → StoreAttempt)
        (pid name : String) (value : List Nat) (tok : String)
        (k : Nat) (b : Nat → String) (status : Nat) (body : String),
        projectIDMatch pid = true → secretNameMatch name = true →
        envT 0 = .resp 200 (.ok tok) → tok ≠ "" →
        k < maxRetries →
        400 ≤ status → status < 500 → status ≠ 409 →
        (∀ j, j < k → envC j = .resp 500 (b j)) →
        envC k = .resp status body →
        StoreInProjectGo (fun _ => false) envT (fun _ => false) envC ctxV envV
            pid name value =
          (.error (.mk ("failed to create secret: status " ++ toString status ++ ": " ++ body)),
            ⟨1, k + 1, 0⟩)) := by
  constructor
  · intro envT envC ctxV envV pid name value tok k b body hpid hname hT htok hk hpre h409
    have htokr := tok_first_success (fun _ => false) envT tok hT htok
    have hcr := create_409_at envC k b body hk hpre h409
    have hblock : createErrBlocks (some (.mk "secret already exists: status 409")) = false := by
      simp only [createErrBlocks, GError.message, Bool.not_eq_false']
      decide
    have heq : StoreInProjectGo (fun _ => false) envT (fun _ => false) envC ctxV envV
        pid name value =
        ((addvLoop ctxV envV 0 maxRetries none 0).1,
          ⟨1, k + 1, (addvLoop ctxV envV 0 maxRetries none 0).2⟩) := by
      simp [StoreInProjectGo, hpid, hname, htokr, hcr, hblock]
    refine ⟨heq, ?_⟩
    rw [heq]
    exact addvLoop_issues ctxV envV 2 none 0
  · intro envT envC ctxV envV pid name value tok k b status body hpid hname hT htok hk
      h4 h5 hne hpre hkx
    have htokr := tok_first_success (fun _ => false) envT tok hT htok
    have hcr := create_4xx_abort_at envC k b status body hk h4 h5 hne hpre hkx
    simp [StoreInProjectGo, hpid, hname, htokr, hcr]

/-- C2, witness: the theorem applied at a concrete input — a 500 then a
409 on the create phase leads to the add-version phase (here answering 200
at once), and the whole store succeeds with one token, two create and one
add-version request. -/
theorem c2_create_409_proceeds_other_4xx_aborts_witness :
    StoreInProjectGo (fun _ => false) (fun _ => .resp 200 (.ok "tk"))
        (fun _ => false) (fun j => if j = 0 then .resp 500 "oops" else .resp 409 "")
        (fun _ => false) (fun _ => .resp 200 "")
        "test-project" "test-secret" [118] =
      ((addvLoop (fun _ => false) (fun _ => .resp 200 "") 0 maxRetries none 0).1,
        ⟨1, 1 + 1, (addvLoop (fun _ => false) (fun _ => .resp 200 "") 0 maxRetries none 0).2⟩) ∧
    1 ≤ (StoreInProjectGo (fun _ => false) (fun _ => .resp 200 (.ok "tk"))
        (fun _ => false) (fun j => if j = 0 then .resp 500 "oops" else .resp 409 "")
        (fun _ => false) (fun _ => .resp 200 "")
        "test-project" "test-secret" [118]).2.addv :=
  c2_create_409_proceeds_other_4xx_aborts.1 (fun _ => .resp 200 (.ok "tk"))
    (fun j => if j = 0 then .resp 500 "oops" else .resp 409 "")
    (fun _ => false) (fun _ => .resp 200 "") "test-project" "test-secret" [118] "tk"
    1 (fun _ => "oops") "" (by decide) (by decide) rfl (by decide) (by decide)
    (by decide) rfl

/-- C3: the base64 encoding used by `StoreInProject` and the decoding used
by `FetchFromProject` are exact inverses: decoding the stored `data` field
recovers exactly the original value's bytes, and a fetch whose 200
response carries that stored field returns exactly the original value. -/
theorem c3_store_fetch_base64_roundtrip (value : List Nat) (h : ∀ x ∈ value, x < 256) :
    goB64Decode (storedData value) = some value ∧
    (∀ (ctx : Nat → Bool) (env : Nat → AccAttempt) (attempt rem : Nat)
        (lastErr : Option GError) (n : Nat),
        ¬(attempt ≠ 0 ∧ ctx attempt) →
        env attempt = .resp 200 (.ok (.ok (storedData value))) →
        accLoop ctx env attempt (rem + 1) lastErr n = (.ok value, n + 1)) := by
  have hrt : goB64Decode (storedData value) = some value := goB64_roundtrip value h
  refine ⟨hrt, ?_⟩
  intro ctx env attempt rem lastErr n hctx henv
  simp [accLoop, hctx, henv, hrt]

/-- C3, witness: the theorem applied at a concrete input — the bytes of
"hi" survive the store/fetch round trip. -/
theorem c3_store_fetch_base64_roundtrip_witness :
    goB64Decode (storedData [104, 105]) = some [104, 105] ∧
    (∀ (ctx : Nat → Bool) (env : Nat → AccAttempt) (attempt rem : Nat)
        (lastErr : Option GError) (n : Nat),
        ¬(attempt ≠ 0 ∧ ctx attempt) →
        env attempt = .resp 200 (.ok (.ok (storedData [104, 105]))) →
        accLoop ctx env attempt (rem + 1) lastErr n = (.ok [104, 105], n + 1)) :=
  c3_store_fetch_base64_roundtrip [104, 105] (by decide)

/-- C5: the claim says a transient failure followed by a success response
makes the operation succeed, but the create phase of `StoreInProject`
never clears `createErr` on its success break: after a 500 then a 201
Created, the loop exits successfully yet still holds the stale remembered
error, and the operation returns "failed to create secret" without ever
attempting the add-version phase. -/
theorem c5_create_transient_then_success_still_fails :
    createLoop (fun _ => false)
        (fun k => if k = 0 then .resp 500 "boom" else .resp 201 "") 0 maxRetries none 0 =
      (.done (some (.mk "status 500: boom")), 2) ∧
    StoreInProjectGo (fun _ => false) (fun _ => .resp 200 (.ok "tok"))
        (fun _ => false) (fun k => if k = 0 then .resp 500 "boom" else .resp 201 "")
        (fun _ => false) (fun _ => .resp 200 "")
        "test-project" "test-secret" [118] =
      (.error (.mk "failed to create secret: status 500: boom"), ⟨1, 2, 0⟩) :=
  ⟨rfl, rfl⟩

/-- C6: each public operation rejects its syntactically invalid inputs —
a project ID not matching the project-ID regex, or a secret name not
matching the secret-name regex — with an immediate invalid-format error
naming the offending field, before any network request is issued (zero
requests at every call site). -/
theorem c6_validation_rejects_before_any_request :
    (∀ (ctxP : Nat → Bool) (envP : Nat → PidAttempt) (ctxT : Nat → Bool)
        (envT : Nat → TokAttempt) (ctxA : Nat → Bool) (envA : Nat → AccAttempt)
        (name : String), secretNameMatch name = false →
        FetchGo ctxP envP ctxT envT ctxA envA name =
          (.error (.mk "invalid secret name format"), 0)) ∧
    (∀ (ctxT : Nat → Bool) (envT : Nat → TokAttempt) (ctxA : Nat → Bool)
        (envA : Nat → AccAttempt) (pid name : String), projectIDMatch pid = false →
        FetchFromProjectGo ctxT envT ctxA envA pid name =
          (.error (.mk ("invalid project ID format: \"" ++ pid ++ "\"")), 0)) ∧
    (∀ (ctxT : Nat → Bool) (envT : Nat → TokAttempt) (ctxA : Nat → Bool)
        (envA : Nat → AccAttempt) (pid name : String),
        projectIDMatch pid = true → secretNameMatch name = false →
        FetchFromProjectGo ctxT envT ctxA envA pid name =
          (.error (.mk "invalid secret name format"), 0)) ∧
    (∀ (ctxP : Nat → Bool) (envP : Nat → PidAttempt) (ctxT : Nat → Bool)
        (envT : Nat → TokAttempt) (ctxC : Nat → Bool) (envC : Nat → StoreAttempt)
        (ctxV : Nat → Bool) (envV : Nat → StoreAttempt) (name : String) (value : List Nat),
        secretNameMatch name = false →
        StoreGo ctxP envP ctxT envT ctxC envC ctxV envV name value =
          (.error (.mk "invalid secret name format"), 0)) ∧
    (∀ (ctxT : Nat → Bool) (envT : Nat → TokAttempt) (ctxC : Nat → Bool)
        (envC : Nat → StoreAttempt) (ctxV : Nat → Bool) (envV : Nat → StoreAttempt)
        (pid name : String) (value : List Nat), projectIDMatch pid = false →
        StoreInProjectGo ctxT envT ctxC envC ctxV envV pid name value =
          (.error (.mk ("invalid project ID format: \"" ++ pid ++ "\"")), ⟨0, 0, 0⟩)) ∧
    (∀ (ctxT : Nat → Bool) (envT : Nat → TokAttempt) (ctxC : Nat → Bool)
        (envC : Nat → StoreAttempt) (ctxV : Nat → Bool) (envV : Nat → StoreAttempt)
        (pid name : String) (value : List Nat),
        projectIDMatch pid = true → secretNameMatch name = false →
        StoreInProjectGo ctxT envT ctxC envC ctxV envV pid name value =
          (.error (.mk "invalid secret name format"), ⟨0, 0, 0⟩)) := by
  refine ⟨?_, ?_, ?_, ?_, ?_, ?_⟩
  · intro ctxP envP ctxT envT ctxA envA name h
    simp [FetchGo, h]
  · intro ctxT envT ctxA envA pid name h
    simp [FetchFromProjectGo, h]
  · intro ctxT envT ctxA envA pid name hp h
    simp [FetchFromProjectGo, hp, h]
  · intro ctxP envP ctxT envT ctxC envC ctxV envV name value h
    simp [StoreGo, h]
  · intro ctxT envT ctxC envC ctxV envV pid name value h
    simp [StoreInProjectGo, h]
  · intro ctxT envT ctxC envC ctxV envV pid name value hp h
    simp [StoreInProjectGo, hp, h]

/-- C6, witness: the theorem applied at a concrete input — a project ID
starting with an uppercase letter is rejected by `FetchFromProject` with
zero requests issued. -/
theorem c6_validation_rejects_before_any_request_witness :
    FetchFromProjectGo (fun _ => false) (fun _ => .netErr "unreachable")
        (fun _ => false) (fun _ => .netErr "unreachable") "Bad-Project" "ok-name" =
      (.error (.mk ("invalid project ID format: \"" ++ "Bad-Project" ++ "\"")), 0) :=
  c6_validation_rejects_before_any_request.2.1 (fun _ => false) (fun _ => .netErr "unreachable")
    (fun _ => false) (fun _ => .netErr "unreachable") "Bad-Project" "ok-name" (by decide)

/-- C8: the primary `StoreInProject` builds the create request as a POST
to `apiURL/projects/pid/secrets?secretId=name` with bearer-token and JSON
content-type headers and the exact body
`\x7b"replication":\x7b"automatic":\x7b\x7d\x7d\x7d`; but the repository's
duplicated copy of `StoreInProject` marshals `automatic` as the
two-character string "\x7b\x7d", producing a different body, so the claim
fails for the create requests that copy sends (its own test,
`TestReplicationPolicy`, expects the primary body). -/
theorem c8_create_request_shape_and_duplicate_body_bug :
    (∀ pid name tok : String,
        createRequest pid name tok =
          { method := "POST"
            url := "https://secretmanager.googleapis.com/v1/projects/" ++ pid ++
              "/secrets?secretId=" ++ name
            headers := [("Authorization", "Bearer " ++ tok),
              ("Content-Type", "application/json")]
            body := "\x7b\"replication\":\x7b\"automatic\":\x7b\x7d\x7d\x7d" }) ∧
    createData = "\x7b\"replication\":\x7b\"automatic\":\x7b\x7d\x7d\x7d" ∧
    createDataAlt = "\x7b\"replication\":\x7b\"automatic\":\"\x7b\x7d\"\x7d\x7d" ∧
    createDataAlt ≠ createData :=
  ⟨fun _ _ _ => rfl, rfl, rfl, by decide⟩

/-- C10: the create-to-add-version transition is gated by
`strings.Contains(createErr.Error(), "secret already exists")`: when all
three create attempts answer 500 with a body containing that substring,
the remembered error's text contains it too, so `StoreInProject` proceeds
to the add-version phase (issuing its requests and adopting its verdict)
even though the create request never returned 409 or success. -/
theorem c10_create_error_substring_gates_phase_b
    (envT : Nat → TokAttempt) (ctxC : Nat → Bool) (envC : Nat → StoreAttempt)
    (ctxV : Nat → Bool) (envV : Nat → StoreAttempt)
    (pid name : String) (value : List Nat) (tok b : String)
    (hpid : projectIDMatch pid = true) (hname : secretNameMatch name = true)
    (hT : envT 0 = .resp 200 (.ok tok)) (htok : tok ≠ "")
    (hc : ∀ j, 0 < j → ctxC j = false)
    (hC : ∀ j, j < maxRetries → envC j = .resp 500 b)
    (hsub : goContains b "secret already exists" = true) :
    StoreInProjectGo (fun _ => false) envT ctxC envC ctxV envV pid name value =
      ((addvLoop ctxV envV 0 maxRetries none 0).1,
        ⟨1, 3, (addvLoop ctxV envV 0 maxRetries none 0).2⟩) ∧
    1 ≤ (StoreInProjectGo (fun _ => false) envT ctxC envC ctxV envV pid name value).2.addv := by
  have htokr := tok_first_success (fun _ => false) envT tok hT htok
  have hcr := create_500_exhaust ctxC envC b hc hC
  have hcontains : goContains ("status 500: " ++ b) "secret already exists" = true :=
    goContains_append "status 500: " b "secret already exists" hsub
  have hblock : createErrBlocks (some (.mk ("status 500: " ++ b))) = false := by
    simp [createErrBlocks, GError.message, hcontains]
  have heq : StoreInProjectGo (fun _ => false) envT ctxC envC ctxV envV pid name value =
      ((addvLoop ctxV envV 0 maxRetries none 0).1,
        ⟨1, 3, (addvLoop ctxV envV 0 maxRetries none 0).2⟩) := by
    simp [StoreInProjectGo, hpid, hname, htokr, hcr, hblock]
  refine ⟨heq, ?_⟩
  rw [heq]
  exact addvLoop_issues ctxV envV 2 none 0

/-- C10, witness: the theorem applied at a concrete input — three 500s
whose body mentions "secret already exists" push the store into the
add-version phase. -/
theorem c10_create_error_substring_gates_phase_b_witness :
    StoreInProjectGo (fun _ => false) (fun _ => .resp 200 (.ok "tk"))
        (fun _ => false) (fun _ => .resp 500 "err: secret already exists here")
        (fun _ => false) (fun _ => .resp 200 "")
        "test-project" "test-secret" [118] =
      ((addvLoop (fun _ => false) (fun _ => .resp 200 "") 0 maxRetries none 0).1,
        ⟨1, 3, (addvLoop (fun _ => false) (fun _ => .resp 200 "") 0 maxRetries none 0).2⟩) ∧
    1 ≤ (StoreInProjectGo (fun _ => false) (fun _ => .resp 200 (.ok "tk"))
        (fun _ => false) (fun _ => .resp 500 "err: secret already exists here")
        (fun _ => false) (fun _ => .resp 200 "")
        "test-project" "test-secret" [118]).2.addv :=
  c10_create_error_substring_gates_phase_b (fun _ => .resp 200 (.ok "tk"))
    (fun _ => false) (fun _ => .resp 500 "err: secret already exists here")
    (fun _ => false) (fun _ => .resp 200 "")
    "test-project" "test-secret" [118] "tk" "err: secret already exists here"
    (by decide) (by decide) rfl (by decide)
    (fun _ _ => rfl) (fun _ _ => rfl) (by decide)

end GSM
